import Mathlib

/-!
Verification development for the `divvy` crate: a broadcast/fan-out
messaging core (`src/progress.rs`) together with an atomic cancellation
switch (`src/switch.rs`).

The Rust code is shallowly embedded as follows:

* A crossbeam channel endpoint (`Sender<T>` paired with its receiver) is
  modelled by `Chan`: `connected` records whether the receiving side is
  still alive, and `queue` records the values successfully delivered, in
  order.  `Chan.send` mirrors `Sender::send`: it enqueues and returns
  `Except.ok` when the receiver is alive, and returns `Except.error`
  (message lost) when the receiver has been dropped.
* `Topic.subscribe` pushes a fresh, live, empty sender onto the
  subscriber vector (progress.rs lines 103-108).
* `fanLoop` is the `while i < subscribers.len() - 1` compaction loop of
  `send_or_remove` (progress.rs lines 134-142), written as well-founded
  recursion on `subscribers.len() - i`, and `send_or_remove` is the whole
  function (lines 129-150) including the early return on empty and the
  final un-cloned send to index `i`.  In the Rust code `subscribers[i]`
  panics when out of bounds; the embedding models that read with
  `subs[i]?`, and the theorem for the safety claim proves the `none`
  branch unreachable.  Cloning a value is identity on values in Lean, so
  the clone-send and the final move-send use the same `Chan.send`.
* `Switch` is an `AtomicBool` behind an `Arc`; every clone reads and
  writes the same single boolean, so the shared state is one `Bool` and
  the exposed mutating interface is described by `SwitchOp`.
* `ProgressTx` couples a publisher endpoint with the cancel switch state;
  `ProgressTx.dummy` uses `crossbeam_channel::unbounded().0`, whose
  receiver is dropped immediately, hence a disconnected channel.
-/

-- ###### CHANNELS #############################################################

/-- A crossbeam channel endpoint as seen from the sending side:
whether the receiving side is still alive, and the values delivered so
far (in order). -/
structure Chan (T : Type) where
  connected : Bool
  queue : List T
  deriving DecidableEq, Repr

/-- The successful outcome of `Sender::send`: the value is appended to the
receiver's queue. -/
def Chan.push {T : Type} (c : Chan T) (x : T) : Chan T :=
  { c with queue := c.queue ++ [x] }

/-- Model of crossbeam `Sender::send`: succeeds and delivers when the
receiver is alive, errors (value lost) when the receiver was dropped. -/
def Chan.send {T : Type} (c : Chan T) (x : T) : Except Unit (Chan T) :=
  if c.connected then .ok (c.push x) else .error ()

-- ###### BROADCAST TOPIC ######################################################

/-- The state of a broadcast topic: the vector of subscriber sending
endpoints (progress.rs line 84, `Vec<Sender<T>>`). -/
structure Topic (T : Type) where
  subscribers : List (Chan T)
  deriving DecidableEq, Repr

/-- `Topic::new` (progress.rs lines 94-98): the subscriber vector starts
empty. -/
def Topic.new {T : Type} : Topic T := ⟨[]⟩

/-- `Topic::subscribe` (progress.rs lines 103-108): create a fresh
unbounded channel and push its sender onto the vector; the receiver is
returned to the caller and stays alive, so the new slot is connected with
an empty queue. -/
def Topic.subscribe {T : Type} (t : Topic T) : Topic T :=
  ⟨t.subscribers ++ [⟨true, []⟩]⟩

/-- `N` consecutive `subscribe` calls on a topic. -/
def Topic.subscribeN {T : Type} (t : Topic T) : Nat → Topic T
  | 0 => t
  | n + 1 => (t.subscribeN n).subscribe

/-- The `while i < (subscribers.len() - 1)` loop of `send_or_remove`
(progress.rs lines 134-142): at index `i`, attempt a clone-send; on
success advance `i`, on failure remove the slot at `i` in place and keep
`i`.  Returns the vector and the index at loop exit. -/
def fanLoop {T : Type} (item : T) (subs : List (Chan T)) (i : Nat) :
    List (Chan T) × Nat :=
  if h : i < subs.length - 1 then
    match (subs.get ⟨i, by omega⟩).send item with
    | .ok s' => fanLoop item (subs.set i s') (i + 1)
    | .error _ => fanLoop item (subs.eraseIdx i)
        i
  else (subs, i)
termination_by subs.length - i
decreasing_by
  · simp only [List.length_set]; omega
  · have := List.length_eraseIdx_add_one (l := subs) (i := i) (by omega)
    omega

/-- `send_or_remove` (progress.rs lines 129-150): early return when the
vector is empty; run the compaction loop; then, if the vector is still
non-empty, send the original item to the slot at the exit index,
removing it on failure.  The out-of-bounds panic of `subscribers[i]` is
modelled by the (provably unreachable) `none` branch. -/
def send_or_remove {T : Type} (subs : List (Chan T)) (item : T) :
    List (Chan T) :=
  if subs.isEmpty then subs
  else
    let r := fanLoop item subs 0
    if r.1.isEmpty then r.1
    else
      match r.1[r.2]? with
      | none => r.1
      | some s =>
        match s.send item with
        | .ok s' => r.1.set r.2 s'
        | .error _ => r.1.eraseIdx r.2

-- ###### SWITCH ###############################################################

/-- `Switch::off` (switch.rs lines 13-15): a fresh switch holds `false`.
All clones of a switch share the same `Arc<AtomicBool>`, so the shared
state is a single boolean. -/
def Switch.off : Bool := false

/-- `Switch::get` (switch.rs lines 18-20): read the shared boolean. -/
def Switch.get (s : Bool) : Bool := s

/-- `Switch::flip_on` (switch.rs lines 23-25): store `true` in the shared
boolean, whatever it held. -/
def Switch.flip_on (_ : Bool) : Bool := true

/-- The operations exposed on a switch (and its clones).  `get` and
`clone` do not change the shared state; `flip_on` stores `true`.  There
is no operation that stores `false`. -/
inductive SwitchOp
  | flipOn
  | getOp
  | cloneOp
  deriving DecidableEq, Repr

/-- Effect of one exposed operation on the shared boolean. -/
def SwitchOp.apply (s : Bool) : SwitchOp → Bool
  | .flipOn => Switch.flip_on s
  | .getOp => s
  | .cloneOp => s

/-- Run a sequence of exposed switch operations from a shared state. -/
def Switch.run (s : Bool) (ops : List SwitchOp) : Bool :=
  ops.foldl SwitchOp.apply s

-- ###### PROGRESS #############################################################

/-- The `Progress` report (progress.rs lines 9-16): a message and a
percentage.  `msg` models the `Cow<'static, str>` by its content and
`pct` models the `u8` value. -/
structure Progress where
  msg : String
  pct : Nat
  deriving DecidableEq, Repr

/-- The traits derived for `Progress` in the source
(`#[derive(Debug, Clone, PartialEq, Eq)]`, progress.rs line 9). -/
def Progress.derives : List String := ["Debug", "Clone", "PartialEq", "Eq"]

/-- Right-justification in a 3-character field, as performed by the Rust
format specifier in `write!(f, "{:>3}%", ...)`: pad on the left with
spaces up to width 3; longer strings are left unchanged. -/
def pad3 (s : String) : String :=
  String.mk (List.replicate (3 - s.length) ' ') ++ s

/-- The `Display` implementation for `Progress` (progress.rs lines
18-26): `"{:>3}%"` when the message is empty, `"{:>3}% - {}"` otherwise. -/
def Progress.render (p : Progress) : String :=
  if p.msg.isEmpty then pad3 (toString p.pct) ++ "%"
  else pad3 (toString p.pct) ++ "% - " ++ p.msg

-- ###### PROGRESS TX ##########################################################

/-- `ProgressTx` (progress.rs lines 31-34): a publisher endpoint for
progress reports plus the shared cancel-switch state. -/
structure ProgressTx where
  publisher : Chan Progress
  cancel : Bool
  deriving DecidableEq, Repr

/-- `ProgressTx::new` (progress.rs lines 38-43). -/
def ProgressTx.new (publisher : Chan Progress) (cancel_switch : Bool) :
    ProgressTx :=
  ⟨publisher, cancel_switch⟩

/-- `ProgressTx::dummy` (progress.rs lines 46-48):
`crossbeam_channel::unbounded().0` drops the receiver immediately, so the
publisher endpoint is disconnected from the start, and the switch is
fresh and off. -/
def ProgressTx.dummy : ProgressTx :=
  ProgressTx.new ⟨false, []⟩ Switch.off

/-- `ProgressTx::send_report` (progress.rs lines 70-72):
`self.publisher.send(progress).ok();` — the send result is converted to
an `Option` and discarded, so a failed delivery leaves the transmitter
unchanged and nothing is raised. -/
def ProgressTx.send_report (tx : ProgressTx) (p : Progress) : ProgressTx :=
  match tx.publisher.send p with
  | .ok c => { tx with publisher := c }
  | .error _ => tx

/-- `ProgressTx::send` (progress.rs lines 59-67): the optional percent
defaults to 0, a `Progress` report is built from it and the message, and
forwarded through `send_report`. -/
def ProgressTx.send (tx : ProgressTx) (pct : Option Nat) (msg : String) :
    ProgressTx :=
  tx.send_report { msg := msg, pct := pct.getD 0 }

/-- `ProgressTx::cancelled` (progress.rs lines 75-77). -/
def ProgressTx.cancelled (tx : ProgressTx) : Bool :=
  Switch.get tx.cancel

-- ###### HELPER LEMMAS ########################################################

/-- Reading a list at the length of a leading segment yields the first
element after that segment. -/
theorem get_at_len {α : Type} (pre : List α) (s : α) (t : List α)
    (h : pre.length < (pre ++ s :: t).length) :
    (pre ++ s :: t).get ⟨pre.length, h⟩ = s := by
  induction pre with
  | nil => rfl
  | cons a l ih => simpa using ih (by simp)

/-- Setting a list at the length of a leading segment replaces the first
element after that segment. -/
theorem set_at_len {α : Type} (pre : List α) (s s' : α) (t : List α) :
    (pre ++ s :: t).set pre.length s' = pre ++ s' :: t := by
  induction pre with
  | nil => rfl
  | cons a l ih => simp [ih]

/-- Erasing a list at the length of a leading segment removes the first
element after that segment. -/
theorem eraseIdx_at_len {α : Type} (pre : List α) (s : α) (t : List α) :
    (pre ++ s :: t).eraseIdx pre.length = pre ++ t := by
  induction pre with
  | nil => rfl
  | cons a l ih => simpa using ih

/-- Optional read at the length of a leading segment. -/
theorem getElem?_at_len {α : Type} (pre : List α) (s : α) (t : List α) :
    (pre ++ s :: t)[pre.length]? = some s := by
  induction pre with
  | nil => simp
  | cons a l ih => simpa using ih

/-- The effect of the compaction loop of `send_or_remove` on the slots it
visits, expressed structurally: it keeps and delivers to every live slot,
drops every dead slot, and leaves the final slot untouched for the
.later un-cloned send. -/
def fanAux {T : Type} (item : T) : List (Chan T) → List (Chan T)
  | [] => []
  | [s] => [s]
  | s :: r :: t =>
    match s.send item with
    | .ok s' => s' :: fanAux item (r :: t)
    | .error _ => fanAux item (r :: t)

/-- The while loop of `send_or_remove`, started at index `pre.length` of
`pre ++ post` with `post` non-empty, returns `pre ++ fanAux item post`
and exits with the index one short of the final length.  This is the
loop invariant: slots before the cursor have already been processed and
are never revisited. -/
theorem fanLoop_append {T : Type} (item : T) :
    ∀ (post pre : List (Chan T)), post ≠ [] →
      fanLoop item (pre ++ post) pre.length =
        (pre ++ fanAux item post,
          pre.length + (fanAux item post).length - 1) := by
  intro post
  induction post with
  | nil => intro pre h; exact absurd rfl h
  | cons s rest ih =>
    intro pre _
    cases rest with
    | nil =>
      rw [fanLoop]
      rw [dif_neg (by simp)]
      simp [fanAux]
    | cons r t =>
      rw [fanLoop]
      rw [dif_pos (by simp)]
      rw [get_at_len]
      cases hc : s.connected with
      | true =>
        simp only [Chan.send, hc, if_pos]
        rw [set_at_len]
        have h1 : pre ++ s.push item :: r :: t =
            (pre ++ [s.push item]) ++ r :: t := by simp
        have h2 : pre.length + 1 = (pre ++ [s.push item]).length := by simp
        rw [h1, h2, ih (pre ++ [s.push item]) (by simp)]
        simp [fanAux, Chan.send, hc]
      | false =>
        simp only [Chan.send, hc, if_neg, Bool.false_eq_true,
          not_false_iff]
        rw [eraseIdx_at_len]
        rw [ih pre (by simp)]
        simp [fanAux, Chan.send, hc]

/-- The compaction loop never empties the vector: the last slot is never
visited by the loop. -/
theorem fanAux_ne_nil {T : Type} (item : T) :
    ∀ (subs : List (Chan T)), subs ≠ [] → fanAux item subs ≠ [] := by
  intro subs
  induction subs with
  | nil => intro h; exact absurd rfl h
  | cons s rest ih =>
    intro _
    cases rest with
    | nil => simp [fanAux]
    | cons r t =>
      cases hc : s.connected with
      | true => simp [fanAux, Chan.send, hc]
      | false =>
        simp only [fanAux, Chan.send, hc, Bool.false_eq_true, if_neg,
          not_false_iff]
        exact ih (by simp)

/-- Structural description of the loop's result: all live non-final slots
get the item and survive, all dead non-final slots are removed, and the
final slot is carried over untouched. -/
theorem fanAux_eq {T : Type} (item : T) :
    ∀ (subs : List (Chan T)) (h : subs ≠ []),
      fanAux item subs =
        ((subs.dropLast.filter (fun c => c.connected)).map
          (fun c => c.push item)) ++ [subs.getLast h] := by
  intro subs
  induction subs with
  | nil => intro h; exact absurd rfl h
  | cons s rest ih =>
    intro _
    cases rest with
    | nil => simp [fanAux]
    | cons r t =>
      have hlast : (s :: r :: t).getLast (by simp) =
          (r :: t).getLast (by simp) := by
        rw [List.getLast_cons]
      cases hc : s.connected with
      | true =>
        simp only [fanAux, Chan.send, hc, if_pos]
        rw [ih (by simp)]
        simp [hlast, List.dropLast, hc]
      | false =>
        simp only [fanAux, Chan.send, hc, Bool.false_eq_true, if_neg,
          not_false_iff]
        rw [ih (by simp)]
        simp [hlast, List.dropLast, hc]

/-- The compaction loop as entered by `send_or_remove`: starting at index
0 it computes `fanAux` of the whole vector and exits at the index of the
final slot. -/
theorem fanLoop_run {T : Type} (item : T) (subs : List (Chan T))
    (h : subs ≠ []) :
    fanLoop item subs 0 =
      (fanAux item subs, (fanAux item subs).length - 1) := by
  simpa using fanLoop_append item subs [] h

/-- Full characterisation of one fan-out pass: every live slot receives
the item exactly once and survives in its original relative position;
every dead slot is removed; nothing else changes. -/
theorem send_or_remove_eq {T : Type} (subs : List (Chan T)) (item : T) :
    send_or_remove subs item =
      (subs.filter (fun c => c.connected)).map (fun c => c.push item) := by
  cases subs with
  | nil => simp [send_or_remove]
  | cons a tl =>
    have hne : a :: tl ≠ [] := by simp
    unfold send_or_remove
    rw [if_neg (by simp)]
    simp only [fanLoop_run item (a :: tl) hne]
    rw [fanAux_eq item (a :: tl) hne]
    rw [if_neg (by simp)]
    have hlen :
        ((((a :: tl).dropLast.filter (fun c => c.connected)).map
          (fun c => c.push item)) ++ [(a :: tl).getLast hne]).length - 1 =
        (((a :: tl).dropLast.filter (fun c => c.connected)).map
          (fun c => c.push item)).length := by
      simp
    rw [hlen, getElem?_at_len]
    cases hc : ((a :: tl).getLast hne).connected with
    | true =>
      simp only [Chan.send, hc, if_pos]
      rw [set_at_len]
      conv_rhs => rw [← List.dropLast_append_getLast hne]
      simp [hc]
    | false =>
      simp only [Chan.send, hc, Bool.false_eq_true, if_neg,
        not_false_iff]
      rw [eraseIdx_at_len]
      conv_rhs => rw [← List.dropLast_append_getLast hne]
      simp [hc]

/-- Subscribing N times to a fresh topic yields N live slots with empty
queues, in subscription order. -/
theorem subscribeN_new {T : Type} :
    ∀ N : Nat, ((Topic.new (T := T)).subscribeN N).subscribers =
      List.replicate N ⟨true, []⟩ := by
  intro N
  induction N with
  | zero => rfl
  | succ n ih =>
    simp [Topic.subscribeN, Topic.subscribe, ih, List.replicate_succ']

/-- Counting live and dead slots partitions the vector. -/
theorem countP_connected_sum {T : Type} (subs : List (Chan T)) :
    subs.countP (fun c => c.connected) +
      subs.countP (fun c => !c.connected) = subs.length := by
  induction subs with
  | nil => rfl
  | cons a tl ih =>
    cases hc : a.connected <;> simp [List.countP_cons, hc] <;> omega

-- ###### CLAIM THEOREMS #######################################################

/-- C1: after N subscribe calls on a topic, one publish of a message
through the fan-out pass leaves every one of the N subscriber slots with
exactly that message delivered: the vector becomes N live slots each
holding queue `[item]`, so each subscriber receives a value equal to the
message by content. -/
theorem claim_C1 {T : Type} (N : Nat) (item : T) :
    send_or_remove ((Topic.new (T := T)).subscribeN N).subscribers item =
      List.replicate N ⟨true, [item]⟩ ∧
    ∀ s ∈ send_or_remove ((Topic.new (T := T)).subscribeN N).subscribers
      item, s.queue = [item] := by
  have h1 : send_or_remove
      ((Topic.new (T := T)).subscribeN N).subscribers item =
      List.replicate N ⟨true, [item]⟩ := by
    rw [subscribeN_new, send_or_remove_eq]
    induction N with
    | zero => rfl
    | succ n ih => simp_all [List.replicate_succ, Chan.push]
  refine ⟨h1, ?_⟩
  intro s hs
  rw [h1] at hs
  rw [List.eq_of_mem_replicate hs]

/-- C1 witness: with two subscribers and message 5, the slot holding
queue `[5]` is among the results and its received value is `[5]`. -/
theorem claim_C1_witness :
    (⟨true, [5]⟩ : Chan Nat) ∈
      send_or_remove ((Topic.new (T := Nat)).subscribeN 2).subscribers 5 ∧
    (⟨true, [5]⟩ : Chan Nat).queue = [5] := by
  have hm : (⟨true, [5]⟩ : Chan Nat) ∈
      send_or_remove ((Topic.new (T := Nat)).subscribeN 2).subscribers 5 := by
    rw [(claim_C1 (T := Nat) 2 5).1]; decide
  exact ⟨hm, (claim_C1 (T := Nat) 2 5).2 _ hm⟩

/-- C2: one fan-out pass over a non-empty vector visits each slot once:
every live slot receives the item (the non-last ones a clone, the last
the original — equal as values) and survives in order, every dead slot
is removed in place, and no slot is skipped or processed twice; in
particular when exactly one slot is dead the pass shrinks the vector by
exactly one. -/
theorem claim_C2 {T : Type} (subs : List (Chan T)) (item : T)
    (_hne : subs ≠ []) :
    send_or_remove subs item =
      (subs.filter (fun c => c.connected)).map (fun c => c.push item) ∧
    (subs.countP (fun c => !c.connected) = 1 →
      (send_or_remove subs item).length = subs.length - 1) := by
  refine ⟨send_or_remove_eq subs item, ?_⟩
  intro hcount
  rw [send_or_remove_eq]
  simp only [List.length_map, ← List.countP_eq_length_filter]
  have := countP_connected_sum subs
  omega

/-- C2 witness: a three-slot vector whose middle slot is dead: the pass
delivers to the two live slots in order and drops the dead one, the
count decreasing from 3 to 2. -/
theorem claim_C2_witness :
    ([⟨true, []⟩, ⟨false, []⟩, ⟨true, []⟩] : List (Chan Nat)) ≠ [] ∧
    send_or_remove
        ([⟨true, []⟩, ⟨false, []⟩, ⟨true, []⟩] : List (Chan Nat)) 7 =
      (([⟨true, []⟩, ⟨false, []⟩, ⟨true, []⟩] : List (Chan Nat)).filter
        (fun c => c.connected)).map (fun c => c.push 7) ∧
    (send_or_remove
        ([⟨true, []⟩, ⟨false, []⟩, ⟨true, []⟩] : List (Chan Nat)) 7).length =
      ([⟨true, []⟩, ⟨false, []⟩, ⟨true, []⟩] : List (Chan Nat)).length - 1 := by
  have h := claim_C2
    ([⟨true, []⟩, ⟨false, []⟩, ⟨true, []⟩] : List (Chan Nat)) 7 (by decide)
  exact ⟨by decide, h.1, h.2 (by decide)⟩

/-- C6: a fan-out pass over an empty subscriber vector drops the message:
the early return fires, no delivery is attempted, and the vector is left
unchanged (still empty), with no error. -/
theorem claim_C6 {T : Type} (item : T) :
    send_or_remove ([] : List (Chan T)) item = [] ∧
    send_or_remove (Topic.new (T := T)).subscribers item =
      (Topic.new (T := T)).subscribers := by
  exact ⟨rfl, rfl⟩

set_option maxRecDepth 2000

/-- C3: the textual rendering right-justifies the percent in a
3-character field followed by a percent sign; a non-empty message is
appended after " - " and an empty message leaves only the percent field;
in particular the three example renderings of the claim hold, and for
every u8 percent value the bare percent field is exactly 4 characters. -/
theorem claim_C3 :
    Progress.render ⟨"", 50⟩ = " 50%" ∧
    Progress.render ⟨"loading", 7⟩ = "  7% - loading" ∧
    Progress.render ⟨"done", 100⟩ = "100% - done" ∧
    (∀ p : Progress, p.msg ≠ "" →
      Progress.render p = Progress.render ⟨"", p.pct⟩ ++ " - " ++ p.msg) ∧
    (∀ p : Progress, p.msg = "" →
      Progress.render p = pad3 (toString p.pct) ++ "%") ∧
    (∀ pct : Nat, pct < 256 → (Progress.render ⟨"", pct⟩).length = 4) := by
  refine ⟨by decide, by decide, by decide, ?_, ?_, by decide⟩
  · intro p h
    have hne : p.msg.isEmpty = false := by
      simp only [Bool.eq_false_iff, ne_eq, String.isEmpty_iff]
      exact h
    have hemp : ("" : String).isEmpty = true := rfl
    have hpm : ("% - " : String) = "%" ++ " - " := rfl
    simp [Progress.render, hne, hemp, hpm, String.append_assoc]
  · intro p h
    have hemp : p.msg.isEmpty = true := by
      simp [String.isEmpty_iff, h]
    simp [Progress.render, hemp]

/-- C3 witness: the relational clauses instantiated: rendering with
message "up" appends " - up" to the bare percent rendering; the empty
message renders as the padded field and the percent sign alone, and the
percent field of a u8 rendering has length 4. -/
theorem claim_C3_witness :
    Progress.render ⟨"up", 3⟩ =
      Progress.render ⟨"", 3⟩ ++ " - " ++ "up" ∧
    Progress.render ⟨"", 255⟩ = pad3 (toString 255) ++ "%" ∧
    (Progress.render ⟨"", 255⟩).length = 4 :=
  ⟨claim_C3.2.2.2.1 ⟨"up", 3⟩ (by decide),
   claim_C3.2.2.2.2.1 ⟨"", 255⟩ rfl,
   claim_C3.2.2.2.2.2 255 (by decide)⟩

/-- C4: the switch transition is one-directional and irreversible: after
`flip_on` on any clone, `get` — and `cancelled` on a transmitter holding
the switch — returns true after every sequence of exposed operations,
since no exposed operation ever stores false (all clones share the same
underlying boolean). -/
theorem claim_C4 (s : Bool) (ops : List SwitchOp) (pub : Chan Progress) :
    Switch.get (Switch.run (Switch.flip_on s) ops) = true ∧
    (ProgressTx.new pub
      (Switch.run (Switch.flip_on s) ops)).cancelled = true := by
  have h : ∀ l : List SwitchOp, Switch.run true l = true := by
    intro l
    induction l with
    | nil => rfl
    | cons op tl ih =>
      cases op <;>
        simpa [Switch.run, SwitchOp.apply, Switch.flip_on] using ih
  exact ⟨h ops, by
    simp [ProgressTx.cancelled, ProgressTx.new, Switch.get, Switch.flip_on,
      h ops]⟩

/-- C5: `send_report` pushes the report onto the bound publisher endpoint
when it is live, and swallows a delivery failure: when the endpoint is
disconnected the transmitter is returned unchanged and no error or panic
escapes (the result of the underlying send is discarded). -/
theorem claim_C5 (tx : ProgressTx) (p : Progress) :
    (tx.publisher.connected = true →
      (tx.send_report p).publisher.queue = tx.publisher.queue ++ [p] ∧
      (tx.send_report p).publisher.connected = true ∧
      (tx.send_report p).cancel = tx.cancel) ∧
    (tx.publisher.connected = false → tx.send_report p = tx) := by
  constructor <;> intro h <;>
    simp [ProgressTx.send_report, Chan.send, Chan.push, h]

/-- C5 witness: a live transmitter receives the pushed report; a
disconnected one is left untouched. -/
theorem claim_C5_witness :
    ((ProgressTx.new ⟨true, []⟩ false).send_report
        ⟨"w", 9⟩).publisher.queue = [] ++ [⟨"w", 9⟩] ∧
    (ProgressTx.new ⟨false, []⟩ false).send_report ⟨"w", 9⟩ =
      ProgressTx.new ⟨false, []⟩ false :=
  ⟨((claim_C5 (ProgressTx.new ⟨true, []⟩ false) ⟨"w", 9⟩).1 rfl).1,
   (claim_C5 (ProgressTx.new ⟨false, []⟩ false) ⟨"w", 9⟩).2 rfl⟩

/-- C7: a dummy transmitter never reports cancellation and both sending
operations return normally leaving the dummy unchanged, for every
percent and message: its publisher endpoint is disconnected so the value
is silently dropped, and its switch is fresh and off. -/
theorem claim_C7 (pct : Option Nat) (msg : String) (p : Progress) :
    ProgressTx.dummy.cancelled = false ∧
    ProgressTx.dummy.send pct msg = ProgressTx.dummy ∧
    ProgressTx.dummy.send_report p = ProgressTx.dummy ∧
    (ProgressTx.dummy.send pct msg).cancelled = false := by
  refine ⟨rfl, ?_, ?_, ?_⟩ <;>
    simp [ProgressTx.send, ProgressTx.send_report, ProgressTx.dummy,
      ProgressTx.new, ProgressTx.cancelled, Chan.send, Switch.off,
      Switch.get]

/-- C8: `send` builds the report from the optional percent (absent
treated as 0) and the message, and forwards exactly that report through
`send_report`; on a live endpoint exactly that report is appended. -/
theorem claim_C8 (tx : ProgressTx) (pct : Option Nat) (msg : String) :
    tx.send pct msg = tx.send_report ⟨msg, pct.getD 0⟩ ∧
    (tx.publisher.connected = true →
      (tx.send pct msg).publisher.queue =
        tx.publisher.queue ++ [⟨msg, pct.getD 0⟩]) := by
  refine ⟨rfl, ?_⟩
  intro h
  simp [ProgressTx.send, ProgressTx.send_report, Chan.send, Chan.push, h]

/-- C8 witness: sending with no percent and message "hi" on a live
transmitter forwards the report with percent 0. -/
theorem claim_C8_witness :
    (ProgressTx.new ⟨true, []⟩ false).send none "hi" =
      (ProgressTx.new ⟨true, []⟩ false).send_report ⟨"hi", Option.getD none 0⟩ ∧
    ((ProgressTx.new ⟨true, []⟩ false).send none "hi").publisher.queue =
      [] ++ [⟨"hi", Option.getD none 0⟩] :=
  ⟨(claim_C8 (ProgressTx.new ⟨true, []⟩ false) none "hi").1,
   (claim_C8 (ProgressTx.new ⟨true, []⟩ false) none "hi").2 rfl⟩

/-- C9 counterexample: the claim asserts a structural ordering on
Progress values, but the source derives only Debug, Clone, PartialEq and
Eq for `Progress` — neither PartialOrd nor Ord — so no ordering is
defined at all. -/
theorem claim_C9_counterexample :
    ¬ ("PartialOrd" ∈ Progress.derives ∨ "Ord" ∈ Progress.derives) := by
  decide

/-- C9 (amended): equality of Progress values is structural over
(percent, message) — two values are equal exactly when their percents
and messages are equal by content, with no identity semantics — and no
ordering is derived or defined for Progress. -/
theorem claim_C9 :
    (∀ p q : Progress, p = q ↔ p.pct = q.pct ∧ p.msg = q.msg) ∧
    "PartialOrd" ∉ Progress.derives ∧ "Ord" ∉ Progress.derives := by
  refine ⟨?_, by decide, by decide⟩
  intro p q
  constructor
  · intro h
    subst h
    exact ⟨rfl, rfl⟩
  · rintro ⟨h1, h2⟩
    cases p
    cases q
    simp_all

/-- C10: for every subscriber vector, the compaction loop of
`send_or_remove` exits with a non-empty vector whose exit index is
exactly the final length minus one, so the closing `debug_assert` is
valid, the final un-cloned send targets the last remaining slot, the
index read is in bounds, and `subscribers.len() - 1` is never evaluated
on a zero length (the vector entering the loop is non-empty and the loop
never removes its final slot). -/
theorem claim_C10 {T : Type} (subs : List (Chan T)) (item : T)
    (hne : subs ≠ []) :
    (fanLoop item subs 0).1 ≠ [] ∧
    (fanLoop item subs 0).2 = (fanLoop item subs 0).1.length - 1 ∧
    ((fanLoop item subs 0).1)[(fanLoop item subs 0).2]? =
      (fanLoop item subs 0).1.getLast? := by
  rw [fanLoop_run item subs hne]
  refine ⟨fanAux_ne_nil item subs hne, rfl, ?_⟩
  rw [fanAux_eq item subs hne]
  have h1 : (((subs.dropLast.filter (fun c => c.connected)).map
      (fun c => c.push item)) ++ [subs.getLast hne]).length - 1 =
      ((subs.dropLast.filter (fun c => c.connected)).map
        (fun c => c.push item)).length := by
    simp
  rw [h1, getElem?_at_len, List.getLast?_concat]

/-- C10 witness: on a two-slot vector with a dead first slot, the loop
exits with the surviving last slot, index 0, and the in-bounds read of
the last slot. -/
theorem claim_C10_witness :
    (fanLoop (3 : Nat) [⟨false, []⟩, ⟨true, []⟩] 0).1 ≠ [] ∧
    (fanLoop (3 : Nat) [⟨false, []⟩, ⟨true, []⟩] 0).2 =
      (fanLoop (3 : Nat) [⟨false, []⟩, ⟨true, []⟩] 0).1.length - 1 ∧
    ((fanLoop (3 : Nat) [⟨false, []⟩, ⟨true, []⟩] 0).1)[
        (fanLoop (3 : Nat) [⟨false, []⟩, ⟨true, []⟩] 0).2]? =
      (fanLoop (3 : Nat) [⟨false, []⟩, ⟨true, []⟩] 0).1.getLast? :=
  claim_C10 [⟨false, []⟩, ⟨true, []⟩] 3 (by decide)
